import Mathlib

/-!
Verification development for the hospital-dashboard row-stream aggregation
pipeline (backend/pg_processing/kis_data.py and backend/data/kis_data.py).

The Python code is shallowly embedded: raw rows are lists of scalar values,
fallible operations (indexing, dict lookups, generator pulls) return values
in the Except monad, and the class-level accumulator buffers are threaded as
explicit state.
-/

set_option autoImplicit false

namespace Hospital

/-- Scalar values carried in raw rows pulled from the KIS database:
text, integers, and SQL NULL (Python None). Equality is Python equality
restricted to these scalar types (values of different types compare unequal). -/
inductive Val where
  | str (s : String)
  | int (n : Int)
  | none
deriving DecidableEq

/-- The Python exceptions that the embedded pipeline code can raise. -/
inductive PyErr where
  | indexError
  | keyError
  | stopIteration
  | unboundLocal
deriving DecidableEq

/-- Python sequence indexing row[ind]: non-negative indices from the front,
negative indices count from the back; out of range gives no value. -/
def pyGet (row : List Val) (ind : Int) : Option Val :=
  if 0 ≤ ind then row[ind.toNat]?
  else
    let j : Int := ind + row.length
    if 0 ≤ j then row[j.toNat]? else Option.none

/-- Whether an Except computation finished without raising. -/
def is_ok {ε α : Type} : Except ε α → Bool
  | Except.ok _ => true
  | Except.error _ => false

/-- DataProcessing.filter_dataset: the list comprehension
[row for row in dataset if row[ind] == value]; evaluating row[ind] on a row
where the index is out of range raises IndexError. Defined identically in
backend/pg_processing/kis_data.py and backend/data/kis_data.py. -/
def filter_dataset (dataset : List (List Val)) (ind : Int) (value : Val) :
    Except PyErr (List (List Val)) :=
  match dataset with
  | [] => Except.ok []
  | row :: rest =>
    match pyGet row ind with
    | Option.none => Except.error PyErr.indexError
    | Option.some x =>
      match filter_dataset rest ind value with
      | Except.error e => Except.error e
      | Except.ok tail => Except.ok (if x = value then row :: tail else tail)

/-- DataProcessing.count_dataset_total: len(dataset). -/
def count_dataset_total (dataset : List (List Val)) : Nat :=
  dataset.length

/-- DataProcessing.error_check (backend/pg_processing/kis_data.py): reads
dataset[0][0] and compares it with the reserved marker string.  Reading the
first row of an empty dataset, or the first field of an empty first row,
raises IndexError.  On the non-error path Python returns None (falsy), which
the Bool result models as false. -/
def error_check (dataset : List (List Val)) : Except PyErr Bool :=
  match dataset with
  | [] => Except.error PyErr.indexError
  | row :: _ =>
    match row with
    | [] => Except.error PyErr.indexError
    | v :: _ => Except.ok (decide (v = Val.str "Error"))

/-- One assignment d[k] = v on a Python dict kept as an insertion-ordered
association list: an existing key keeps its position and gets the new value,
a new key is appended at the end. -/
def dict_assign {α : Type} (d : List (String × α)) (k : String) (v : α) :
    List (String × α) :=
  if (d.map Prod.fst).contains k then
    d.map (fun p => if p.1 = k then (k, v) else p)
  else d ++ [(k, v)]

/-- Building a Python dict from a sequence of key-value pairs
(dict(...) or repeated setattr in CleanData.__init__), by successive
insertion-ordered assignments. -/
def pyDict {α : Type} (pairs : List (String × α)) : List (String × α) :=
  pairs.foldl (fun d p => dict_assign d p.1 p.2) []

/-- DataProcessing.create_instance: one CleanData record per dataset row,
built as dict(zip(columns, row)); Python zip silently truncates to the
shorter of the two lists.  Defined identically in both modules. -/
def create_instance (columns : List String) (dataset : List (List Val)) :
    List (List (String × Val)) :=
  dataset.map (fun row => pyDict (columns.zip row))

/-- Elements at even positions of a flattened sequence (Python slice [::2]). -/
def evens {α : Type} : List α → List α
  | [] => []
  | [a] => [a]
  | a :: _ :: rest => a :: evens rest

/-- Elements at odd positions of a flattened sequence (Python slice [1::2]). -/
def odds {α : Type} : List α → List α
  | [] => []
  | [_] => []
  | _ :: b :: rest => b :: odds rest

/-- One lookup mapping[column] on the localized-label table: a KeyError
when the label is absent (or is not a text value at all, since the table
keys are strings). -/
def dict_lookup (mapping : List (String × String)) (v : Val) :
    Except PyErr String :=
  match v with
  | Val.str s =>
    match mapping.lookup s with
    | Option.some c => Except.ok c
    | Option.none => Except.error PyErr.keyError
  | _ => Except.error PyErr.keyError

/-- The list comprehension [mapping[column] for column in ru_columns]:
translates each localized label through the table, raising KeyError at the
first absent label. -/
def translate_columns (mapping : List (String × String)) :
    List Val → Except PyErr (List String)
  | [] => Except.ok []
  | v :: rest =>
    match dict_lookup mapping v with
    | Except.error e => Except.error e
    | Except.ok c =>
      match translate_columns mapping rest with
      | Except.error e => Except.error e
      | Except.ok cs => Except.ok (c :: cs)

/-- DataProcessing.slice_dataset (identical to the private
KISDataProcessing.__slice_dataset of the pg module): flattens all rows into
one tuple with itertools.chain, takes the even positions as localized column
labels and the odd positions as counted values, and translates the labels
through the mapping table. -/
def slice_dataset (dataset : List (List Val)) (mapping : List (String × String)) :
    Except PyErr (List String × List Val) :=
  let stacked := dataset.flatten
  let ru_columns := evens stacked
  match translate_columns mapping ru_columns with
  | Except.error e => Except.error e
  | Except.ok en_columns => Except.ok (en_columns, odds stacked)

/-- KISDataProcessing.__count_values: one filter per keyword, in keyword
order, collecting the filtered lengths.  Defined identically in both
modules. -/
def count_values (dataset : List (List Val)) (ind : Int) (keywords : List Val) :
    Except PyErr (List Nat) :=
  match keywords with
  | [] => Except.ok []
  | kw :: rest =>
    match filter_dataset dataset ind kw with
    | Except.error e => Except.error e
    | Except.ok f =>
      match count_values dataset ind rest with
      | Except.error e => Except.error e
      | Except.ok tail => Except.ok (f.length :: tail)

/-- The REST-framework serializers (KISDataSerializer / KISTableSerializer)
are external collaborators outside the pipeline; serialization is modeled as
the identity on the record list produced by create_instance. -/
def serialize (ready_dataset : List (List (String × Val))) :
    List (List (String × Val)) :=
  ready_dataset

/-! Configuration constants from the QuerySets classes.  The pg module
(backend/pg_processing/sql_queries.py) and the data module
(backend/data/sql_queries.py) carry divergent copies of some of them; both
are embedded, suffixed _pg and _data where they differ.  The column sets
missing from the pg QuerySets (the oar table columns) are taken from the
data module, the only place the repository defines them. -/

/-- QuerySets.COLUMNS for the arrivals summary record (same in both files). -/
def arrived_columns : List String :=
  ["ch103", "clinic_only", "ch103_clinic", "singly", "ZL", "foreign",
   "moscow", "undefined"]

/-- QuerySets.channels of backend/pg_processing/sql_queries.py. -/
def channels_pg : List String :=
  ["103", "Поликлиника", "103 Поликлиника", "Самотек"]

/-- QuerySets.statuses of backend/pg_processing/sql_queries.py. -/
def statuses_pg : List String :=
  ["ЗЛ", "Иногородние", "Москвичи", "не указано"]

/-- QuerySets.channels of backend/data/sql_queries.py. -/
def channels_data : List String :=
  ["103", "Поликлиника", "103 Поликлиника", "самотек"]

/-- QuerySets.statuses of backend/data/sql_queries.py. -/
def statuses_data : List String :=
  ["ЗЛ", "Иногородний", "ДМС", "Не указано"]

/-- QuerySets.COLUMNS for the signout totals (backend/data/sql_queries.py). -/
def signout_columns : List String :=
  ["deads", "moved", "signout"]

/-- QuerySets.signout keyword list (backend/data/sql_queries.py). -/
def signout_keywords : List Val :=
  [Val.str "Умер в стационаре",
   Val.str "Переведён в другую МО из стационара",
   Val.str "Выписан"]

/-- QuerySets.COLUMNS for the deaths table (backend/data/sql_queries.py). -/
def deads_t_columns : List String :=
  ["pat_fio", "ib_num", "sex", "age", "arriving_dt", "state", "dept",
   "days", "diag_arr", "diag_dead"]

/-- QuerySets.COLUMNS for the arrived-to-ICU table. -/
def oar_arrived_t_columns : List String :=
  ["pat_fio", "ib_num", "age", "dept", "doc_fio", "diag_start"]

/-- QuerySets.COLUMNS for the moved-to-ICU table. -/
def oar_moved_t_columns : List String :=
  ["pat_fio", "ib_num", "age", "dept", "doc_fio", "move_date", "from_dept",
   "diag_start"]

/-- QuerySets.COLUMNS for the currently-in-ICU table. -/
def oar_current_t_columns : List String :=
  ["pat_fio", "ib_num", "age", "dept", "doc_fio", "days", "diag_start"]

/-- QuerySets.COLUMNS for the ICU occupancy summary record. -/
def oar_amount_columns : List String :=
  ["oar1_d", "oar2_d", "oaronmk_d", "oaroim_d", "oar_d"]

/-- The three ICU unit names the deaths and ICU-snapshot aggregators filter
by, in the order the list comprehensions iterate over them. -/
def oar_names : List String :=
  ["ОРИТ №1", "ОРИТ №2", "ОРИТ №3"]

/-- QuerySets.DICT_KEYWORDS of backend/data/sql_queries.py: the topic
keywords of the final result, in assembly order. -/
def dict_keywords : List String :=
  ["arrived", "signout", "deads", "oar_arrived", "oar_moved", "oar_current",
   "oar_numbers"]

/-- QuerySets.DMK_COLUMNS of backend/data/sql_queries.py. -/
def dmk_columns : List String :=
  ["arrived", "hosp", "refused", "signout", "deads", "reanimation"]

/-- QuerySets.depts_mapping of backend/data/sql_queries.py: the
deployment-configured lookup table from localized department names to
canonical field names. -/
def depts_mapping : List (String × String) :=
  [("Отделение реанимации и интенсивной терапии для больных с ОНМК", "oaronmk_d"),
   ("Хирургическое отделение", "surgery_d"),
   ("Отделение реанимации и интенсивной терапии № 1", "oar1_d"),
   ("Приемное ДП", "dp_d"),
   ("Отделение анестезиологии-реанимации", "oar_d"),
   ("Отделение травматологии и ортопедии", "trauma_d"),
   ("Нейрохирургическое отделение", "neurosurgery_d"),
   ("Отделение реанимации и интенсивной терапии для больных с острым инфарктом миокарда", "oaroim_d"),
   ("Отделение реанимации и интенсивной терапии № 2", "oar2_d"),
   ("Кардиологическое отделение", "cardio_d"),
   ("Терапевтическое отделение", "therapy_d"),
   ("Эндокринологическое отделение", "endo_d"),
   ("Неврологическое отделение для больных с ОНМК", "neuroonmk_d"),
   ("Урологическое отделение", "urology_d"),
   ("Отделение гнойной хирургии", "pursurgery_d"),
   ("2 кардиологическое (ОИМ)", "cardio2_d"),
   ("Стационар кратковременного пребывания", "skp_d"),
   ("Гинекологическое отделение", "gynecology_d"),
   ("Приемное отделение", "emer_d"),
   ("Многопрофильное отделение по оказанию платных медицинских услуг", "multi_pay_d"),
   ("Дневной стационар АПЦ", "apc_d"),
   ("Отделение сочетанной травмы", "combine_d"),
   ("Пульмонологическое отделение", "pulmonology_d")]

/-! Topic aggregators. -/

/-- KISDataProcessing.__arrived_process of backend/pg_processing/kis_data.py:
checks for the failure sentinel first; on the sentinel path both keyword
count lists are zero-filled, otherwise the dataset is filtered to admitted
rows and counted by channel keywords (index 2) and patient-type keywords
(index -1); the two count lists are concatenated into a single one-row
summary record. -/
def arrived_process_pg (arrived_dataset : List (List Val)) :
    Except PyErr (List (List (String × Val))) :=
  match error_check arrived_dataset with
  | Except.error e => Except.error e
  | Except.ok err =>
    match (if err then
             Except.ok (channels_pg.map (fun _ => (0 : Int)),
                        statuses_pg.map (fun _ => (0 : Int)))
           else
             match filter_dataset arrived_dataset 0 (Val.int 1) with
             | Except.error e => Except.error e
             | Except.ok hosp_data =>
               match count_values hosp_data 2 (channels_pg.map Val.str) with
               | Except.error e => Except.error e
               | Except.ok chs =>
                 match count_values hosp_data (-1) (statuses_pg.map Val.str) with
                 | Except.error e => Except.error e
                 | Except.ok sts =>
                   Except.ok (chs.map Int.ofNat, sts.map Int.ofNat)) with
    | Except.error e => Except.error e
    | Except.ok counts =>
      let summary_dataset := [(counts.1 ++ counts.2).map Val.int]
      Except.ok (serialize (create_instance arrived_columns summary_dataset))

/-- KISDataProcessing.__arrived_process of backend/data/kis_data.py: the
same counting pipeline but with the data-module keyword lists and without
any failure-sentinel check. -/
def arrived_process_data (arrived_dataset : List (List Val)) :
    Except PyErr (List (List (String × Val))) :=
  match filter_dataset arrived_dataset 0 (Val.int 1) with
  | Except.error e => Except.error e
  | Except.ok hosp_data =>
    match count_values hosp_data 2 (channels_data.map Val.str) with
    | Except.error e => Except.error e
    | Except.ok chs =>
      match count_values hosp_data (-1) (statuses_data.map Val.str) with
      | Except.error e => Except.error e
      | Except.ok sts =>
        let summary_dataset := [(chs.map Int.ofNat ++ sts.map Int.ofNat).map Val.int]
        Except.ok (serialize (create_instance arrived_columns summary_dataset))

/-- Helper for collections.Counter: the distinct elements of a list in
first-encounter order, with the already-seen elements accumulated. -/
def first_occurrences {α : Type} [DecidableEq α] (seen : List α) :
    List α → List α
  | [] => []
  | a :: rest =>
    if a ∈ seen then first_occurrences seen rest
    else a :: first_occurrences (a :: seen) rest

/-- Number of occurrences of an element in a list. -/
def count_eq {α : Type} [DecidableEq α] (xs : List α) (a : α) : Nat :=
  (xs.filter (fun b => decide (b = a))).length

/-- collections.Counter(xs).items(): each distinct element in
first-encounter order, paired with its multiplicity. -/
def counterItems {α : Type} [DecidableEq α] (xs : List α) :
    List (α × Nat) :=
  (first_occurrences [] xs).map (fun a => (a, count_eq xs a))

/-- The comprehension [(dept[0], cnt) for dept, cnt in counter.items()] of
KISDataProcessing.__signout_process: indexing dept[0] raises IndexError on
an empty row tuple. -/
def pairs_from_counter : List (List Val × Nat) → Except PyErr (List (List Val))
  | [] => Except.ok []
  | p :: rest =>
    match pyGet p.1 0 with
    | Option.none => Except.error PyErr.indexError
    | Option.some d0 =>
      match pairs_from_counter rest with
      | Except.error e => Except.error e
      | Except.ok t => Except.ok ([d0, Val.int (Int.ofNat p.2)] :: t)

/-- KISDataProcessing.__signout_process of backend/data/kis_data.py: filter
to discharged rows, group equal rows with Counter, turn the groups into
(department, count) pairs, translate the department labels via
slice_dataset over depts_mapping (a KeyError there propagates), count the
outcome keywords over the whole dataset, and emit one summary record over
the totals columns followed by the translated department columns. -/
def signout_process (signout_dataset : List (List Val)) :
    Except PyErr (List (List (String × Val))) :=
  match filter_dataset signout_dataset 1 (Val.str "Выписан") with
  | Except.error e => Except.error e
  | Except.ok signout_only =>
    match pairs_from_counter (counterItems signout_only) with
    | Except.error e => Except.error e
    | Except.ok counted_signout_dataset =>
      match slice_dataset counted_signout_dataset depts_mapping with
      | Except.error e => Except.error e
      | Except.ok packed_data =>
        match count_values signout_dataset 1 signout_keywords with
        | Except.error e => Except.error e
        | Except.ok sorted_signout =>
          let summary_dataset :=
            [sorted_signout.map (fun n => Val.int (Int.ofNat n)) ++ packed_data.2]
          let summary_columns := signout_columns ++ packed_data.1
          Except.ok (serialize (create_instance summary_columns summary_dataset))

/-- KISDataProcessing.__deads_process (identical in both modules): counts
the dead patients per ICU unit at index 6 and rebinds the instance-level
deads_oar buffer to that single tuple (the walrus condition is the
3-element count list, so the rebind happens whenever the unit list is
non-empty); the dataset itself passes through as table records.  Returns
the serialized table and the new deads_oar buffer. -/
def deads_process (deads_dataset : List (List Val)) :
    Except PyErr (List (List (String × Val)) × List (List Val)) :=
  match count_values deads_dataset 6 (oar_names.map Val.str) with
  | Except.error e => Except.error e
  | Except.ok oars_filtered =>
    let entry := oars_filtered.map (fun n => Val.int (Int.ofNat n))
    let deads_oar := if entry.isEmpty then [] else [entry]
    Except.ok (serialize (create_instance deads_t_columns deads_dataset), deads_oar)

/-- KISDataProcessing.__oar_process (identical in both modules): counts the
living ICU patients per unit at index 3 and appends the tuple to the
class-level counted_oar buffer (again the walrus condition is a 3-element
list, hence always true); the dataset passes through as table records.
The buffer is threaded explicitly: it enters as the current class-attribute
value and the appended value is returned. -/
def oar_process (counted_oar : List (List (List Val)))
    (dataset : List (List Val)) (columns : List String) :
    Except PyErr (List (List (String × Val)) × List (List (List Val))) :=
  match count_values dataset 3 (oar_names.map Val.str) with
  | Except.error e => Except.error e
  | Except.ok oar_nums =>
    let entry := oar_nums.map (fun n => Val.int (Int.ofNat n))
    let counted := if entry.isEmpty then counted_oar else counted_oar ++ [[entry]]
    Except.ok (serialize (create_instance columns dataset), counted)

/-- KISDataProcessing.oar_count (identical in both modules): turns every
counted_oar entry into a record list, reads entries 0, 1 and 2 of that list
(raising IndexError when fewer than three entries were accumulated), turns
the deads_oar buffer into a record list, and emits the four keyed summary
entries in arrived/moved/current/deads order. -/
def oar_count (counted_oar : List (List (List Val)))
    (deads_oar : List (List Val)) :
    Except PyErr (List (String × List (List (String × Val)))) :=
  let living_list := counted_oar.map (fun i => create_instance oar_amount_columns i)
  let deads_list := create_instance oar_amount_columns deads_oar
  match living_list[0]? with
  | Option.none => Except.error PyErr.indexError
  | Option.some l0 =>
    match living_list[1]? with
    | Option.none => Except.error PyErr.indexError
    | Option.some l1 =>
      match living_list[2]? with
      | Option.none => Except.error PyErr.indexError
      | Option.some l2 =>
        Except.ok [("arrived_nums", serialize l0),
                   ("moved_nums", serialize l1),
                   ("current_nums", serialize l2),
                   ("deads_nums", serialize deads_list)]

/-- The accumulator-relevant slice of one KISDataProcessing.create_ready_dicts
run of backend/pg_processing/kis_data.py: the deaths aggregator, the three
ICU snapshot aggregators and the occupancy summary, with the class-level
counted_oar buffer threaded through from the state the previous run left
behind (the arrived/dept/signout stages neither read nor write the
buffers).  Returns the occupancy summary of this run and the counted_oar
state the next run will observe. -/
def kis_oar_run (counted_oar : List (List (List Val)))
    (deads_dataset d_arrived d_moved d_current : List (List Val)) :
    Except PyErr (List (String × List (List (String × Val))) ×
                  List (List (List Val))) :=
  match deads_process deads_dataset with
  | Except.error e => Except.error e
  | Except.ok pd =>
    match oar_process counted_oar d_arrived oar_arrived_t_columns with
    | Except.error e => Except.error e
    | Except.ok p1 =>
      match oar_process p1.2 d_moved oar_moved_t_columns with
      | Except.error e => Except.error e
      | Except.ok p2 =>
        match oar_process p2.2 d_current oar_current_t_columns with
        | Except.error e => Except.error e
        | Except.ok p3 =>
          match oar_count p3.2 pd.2 with
          | Except.error e => Except.error e
          | Except.ok summary => Except.ok (summary, p3.2)

/-! Final-result assembly (backend/data/kis_data.py). -/

/-- One processed fragment of the final result: a serialized record list
from a topic aggregator, the keyed occupancy summary, or the None
placeholder written on the connection-failure path. -/
inductive Frag where
  | recs (rs : List (List (String × Val)))
  | oar (xs : List (String × List (List (String × Val))))
  | null
deriving DecidableEq

/-- One pull on the dataset generator: next(gen) yields the next dataset or
raises StopIteration when the source is exhausted. -/
def pull (gen : List (List (List Val))) :
    Except PyErr (List (List Val) × List (List (List Val))) :=
  match gen with
  | [] => Except.error PyErr.stopIteration
  | d :: rest => Except.ok (d, rest)

/-- The dict comprehension of create_ready_dicts:
keyed by keywords[ready_dataset.index(dataset)], i.e. the keyword at the
position of the FIRST fragment equal by value to the current one; equal
fragments therefore collapse onto the earlier keyword. -/
def assemble (keywords : List String) (ready_dataset : List Frag) :
    Except PyErr (List (String × Frag)) :=
  ready_dataset.foldlM
    (fun acc d =>
      match keywords[ready_dataset.findIdx (fun x => decide (x = d))]? with
      | Option.none => Except.error PyErr.indexError
      | Option.some k => Except.ok (dict_assign acc k d))
    []

/-- KISDataProcessing.create_ready_dicts of backend/data/kis_data.py.  When
the database connection was never established (db_conn.conn is None) it
returns the dictionary of all topic keywords zipped against eight None
placeholders without pulling a single dataset; otherwise it pulls six
datasets in submission order, dispatches them to the aggregators, and
assembles the keyword-indexed result.  The class-level counted_oar buffer
is threaded explicitly, entering as the state left by previous runs. -/
def create_ready_dicts (conn_is_none : Bool) (gen : List (List (List Val)))
    (counted_oar : List (List (List Val))) :
    Except PyErr (List (List (String × Frag)) × List (List (List Val))) :=
  if conn_is_none then
    Except.ok ([pyDict (dict_keywords.zip (List.replicate 8 Frag.null))],
               counted_oar)
  else
    match pull gen with
    | Except.error e => Except.error e
    | Except.ok (d1, g1) =>
      match arrived_process_data d1 with
      | Except.error e => Except.error e
      | Except.ok arrived =>
        match pull g1 with
        | Except.error e => Except.error e
        | Except.ok (d2, g2) =>
          match signout_process d2 with
          | Except.error e => Except.error e
          | Except.ok signout =>
            match pull g2 with
            | Except.error e => Except.error e
            | Except.ok (d3, g3) =>
              match deads_process d3 with
              | Except.error e => Except.error e
              | Except.ok deads =>
                match pull g3 with
                | Except.error e => Except.error e
                | Except.ok (d4, g4) =>
                  match oar_process counted_oar d4 oar_arrived_t_columns with
                  | Except.error e => Except.error e
                  | Except.ok p1 =>
                    match pull g4 with
                    | Except.error e => Except.error e
                    | Except.ok (d5, g5) =>
                      match oar_process p1.2 d5 oar_moved_t_columns with
                      | Except.error e => Except.error e
                      | Except.ok p2 =>
                        match pull g5 with
                        | Except.error e => Except.error e
                        | Except.ok (d6, _) =>
                          match oar_process p2.2 d6 oar_current_t_columns with
                          | Except.error e => Except.error e
                          | Except.ok p3 =>
                            match oar_count p3.2 deads.2 with
                            | Except.error e => Except.error e
                            | Except.ok oar_numbers =>
                              let ready_dataset : List Frag :=
                                [Frag.recs arrived, Frag.recs signout,
                                 Frag.recs deads.1, Frag.recs p1.1,
                                 Frag.recs p2.1, Frag.recs p3.1,
                                 Frag.oar oar_numbers]
                              match assemble dict_keywords ready_dataset with
                              | Except.error e => Except.error e
                              | Except.ok result => Except.ok ([result], p3.2)

/-! The DMK collection pipeline (DataForDMK of backend/data/kis_data.py). -/

/-- DataForDMK.count_data: total rows, rows matching the filter, and the
rest; for index 1 only the total and the non-matching count are returned. -/
def count_data (dataset : List (List Val)) (ind : Int) (value : Val) :
    Except PyErr (List Int) :=
  match filter_dataset dataset ind value with
  | Except.error e => Except.error e
  | Except.ok data =>
    let total_amount := count_dataset_total dataset
    let positive_amount := data.length
    let negative_amount := total_amount - positive_amount
    if ind = 1 then
      Except.ok [Int.ofNat total_amount, Int.ofNat negative_amount]
    else
      Except.ok [Int.ofNat total_amount, Int.ofNat positive_amount,
                 Int.ofNat negative_amount]

/-- DataForDMK.get_arrived_data: dict(zip(DMK_COLUMNS[0:3], counts)). -/
def get_arrived_data (arrived_dataset : List (List Val)) :
    Except PyErr (List (String × Val)) :=
  match count_data arrived_dataset 0 (Val.int 1) with
  | Except.error e => Except.error e
  | Except.ok vals =>
    Except.ok (pyDict ((dmk_columns.take 3).zip (vals.map Val.int)))

/-- DataForDMK.get_signout_data: dict(zip(DMK_COLUMNS[3:5], counts)). -/
def get_signout_data (signout_dataset : List (List Val)) :
    Except PyErr (List (String × Val)) :=
  match count_data signout_dataset 1 (Val.str "Другая причина") with
  | Except.error e => Except.error e
  | Except.ok vals =>
    Except.ok (pyDict (((dmk_columns.drop 3).take 2).zip (vals.map Val.int)))

/-- DataForDMK.get_reanimation_data: the row count keyed by the last DMK
column. -/
def get_reanimation_data (reanimation_dataset : List (List Val)) :
    List (String × Val) :=
  [("reanimation", Val.int (Int.ofNat (count_dataset_total reanimation_dataset)))]

/-- One row of DataForDMK.get_dept_hosps: the nested comprehension matches
the row label against every single-entry profile dict; row[0] is evaluated
once the inner loop runs at all, row[1] only for a matching profile. -/
def dept_hosp_row (profiles : List (String × Int)) (row : List Val) :
    Except PyErr (List (List (String × Val))) :=
  match profiles with
  | [] => Except.ok []
  | _ :: _ =>
    match pyGet row 0 with
    | Option.none => Except.error PyErr.indexError
    | Option.some r0 =>
      match profiles.filter (fun p => decide (Val.str p.1 = r0)) with
      | [] => Except.ok []
      | hits =>
        match pyGet row 1 with
        | Option.none => Except.error PyErr.indexError
        | Option.some r1 =>
          Except.ok (hits.map (fun p =>
            pyDict [("number", r1), ("profile", Val.int p.2)]))

/-- DataForDMK.get_dept_hosps over the whole department dataset. -/
def get_dept_hosps (profiles : List (String × Int)) :
    List (List Val) → Except PyErr (List (List (String × Val)))
  | [] => Except.ok []
  | row :: rest =>
    match dept_hosp_row profiles row with
    | Except.error e => Except.error e
    | Except.ok rs =>
      match get_dept_hosps profiles rest with
      | Except.error e => Except.error e
      | Except.ok t => Except.ok (rs ++ t)

/-- DataForDMK.__collect_data of backend/data/kis_data.py.  The local
variable dh_dataset is modeled as an Option initialized to Option.none:
Python assigns it only inside the connected branch, yet the returned dict
evaluates it on both paths, so the connection-failure branch raises
UnboundLocalError at the return expression. -/
def collect_data (conn_is_none : Bool) (gen : List (List (List Val)))
    (profiles : List (String × Int)) (today : Val) :
    Except PyErr (List (String × Val) × List (List (String × Val))) :=
  match (if conn_is_none then
           Except.ok (dmk_columns.map (fun i => (i, Val.none)),
                      (Option.none : Option (List (List (String × Val)))))
         else
           match pull gen with
           | Except.error e => Except.error e
           | Except.ok (d1, g1) =>
             match get_arrived_data d1 with
             | Except.error e => Except.error e
             | Except.ok arrived =>
               match pull g1 with
               | Except.error e => Except.error e
               | Except.ok (d2, g2) =>
                 match get_signout_data d2 with
                 | Except.error e => Except.error e
                 | Except.ok signout =>
                   match pull g2 with
                   | Except.error e => Except.error e
                   | Except.ok (d3, g3) =>
                     let deads := get_reanimation_data d3
                     match pull g3 with
                     | Except.error e => Except.error e
                     | Except.ok (d4, _) =>
                       match get_dept_hosps profiles d4 with
                       | Except.error e => Except.error e
                       | Except.ok dh =>
                         Except.ok (arrived ++ signout ++ deads,
                                    Option.some dh)) with
  | Except.error e => Except.error e
  | Except.ok (main_data, dh_dataset) =>
    let ready_main_data := ("dates", today) :: main_data
    match dh_dataset with
    | Option.some dh => Except.ok (ready_main_data, dh)
    | Option.none => Except.error PyErr.unboundLocal

/-! KISData.get_data_generator (identical in both modules): a plain Python
generator that yields one cursor result per submitted query and only then,
after the loop, calls close_connection.  The observable effect traces of
the two ways a consumer can finish with the generator are modeled:
iterating it to exhaustion, and abandoning it early (the consumer stops
calling next, so generator finalization throws GeneratorExit at the
suspended yield; with no try/finally around the loop, the close call after
the loop is never reached). -/

/-- An observable effect of the generator: executing one query through the
cursor, or releasing the connection. -/
inductive GenEffect where
  | query (q : String)
  | closeConn
deriving DecidableEq

/-- Effects emitted when a consumer has called next the given number of
times: each of the first len(query_sets) calls runs one query; the call
after the last query runs close_connection and then raises StopIteration. -/
def gen_trace (query_sets : List String) (pulls : Nat) : List GenEffect :=
  if pulls ≤ query_sets.length then
    (query_sets.take pulls).map GenEffect.query
  else
    query_sets.map GenEffect.query ++ [GenEffect.closeConn]

/-- Effects emitted when the consumer abandons iteration after the given
number of pulls: GeneratorExit is thrown at the suspended yield and, with
no try/finally in get_data_generator, the close_connection line after the
loop never executes. -/
def abandon_trace (query_sets : List String) (pulls : Nat) : List GenEffect :=
  (query_sets.take pulls).map GenEffect.query

/-- How many times a trace released the connection. -/
def close_count (t : List GenEffect) : Nat :=
  t.countP (fun e => decide (e = GenEffect.closeConn))

/-! General lemmas about the embedded primitives. -/

theorem filter_dataset_ok (ind : Int) (v : Val) :
    ∀ ds : List (List Val), (∀ r ∈ ds, (pyGet r ind).isSome = true) →
    filter_dataset ds ind v =
      Except.ok (ds.filter (fun r => decide (pyGet r ind = Option.some v))) := by
  intro ds
  induction ds with
  | nil => intro _; rfl
  | cons row rest ih =>
    intro h
    have hrow : (pyGet row ind).isSome = true := h row (List.mem_cons_self _ _)
    obtain ⟨x, hx⟩ := Option.isSome_iff_exists.mp hrow
    have hrest := ih (fun r hr => h r (List.mem_cons_of_mem _ hr))
    simp only [filter_dataset, hx, hrest, List.filter_cons]
    by_cases hxv : x = v
    · subst hxv; simp [hx]
    · simp [hx, hxv]

theorem count_values_ok (ds : List (List Val)) (ind : Int)
    (h : ∀ r ∈ ds, (pyGet r ind).isSome = true) :
    ∀ kws : List Val,
    count_values ds ind kws =
      Except.ok (kws.map (fun kw =>
        (ds.filter (fun r => decide (pyGet r ind = Option.some kw))).length)) := by
  intro kws
  induction kws with
  | nil => rfl
  | cons kw rest ih =>
    simp only [count_values, filter_dataset_ok ind kw ds h, ih, List.map_cons]

theorem dict_assign_fresh {α : Type} (d : List (String × α)) (k : String)
    (v : α) (h : k ∉ d.map Prod.fst) :
    dict_assign d k v = d ++ [(k, v)] := by
  have hc : ¬ (((d.map Prod.fst).contains k) = true) := by simpa using h
  simp only [dict_assign, if_neg hc]

theorem foldl_dict_assign_fresh {α : Type} :
    ∀ (l acc : List (String × α)),
    (l.map Prod.fst).Nodup →
    (∀ k ∈ l.map Prod.fst, k ∉ acc.map Prod.fst) →
    l.foldl (fun d p => dict_assign d p.1 p.2) acc = acc ++ l := by
  intro l
  induction l with
  | nil => intro acc _ _; simp
  | cons p rest ih =>
    intro acc hnd hdisj
    have hfresh : p.1 ∉ acc.map Prod.fst :=
      hdisj p.1 (by simp)
    have hnd_rest : (rest.map Prod.fst).Nodup := by
      simpa using hnd.of_cons
    have hhead : p.1 ∉ rest.map Prod.fst := by
      have := hnd
      simp only [List.map_cons, List.nodup_cons] at this
      exact this.1
    have hdisj_rest : ∀ k ∈ rest.map Prod.fst,
        k ∉ (acc ++ [p]).map Prod.fst := by
      intro k hk
      simp only [List.map_append, List.mem_append, List.map_cons,
        List.map_nil, List.mem_singleton]
      rintro (h1 | h2)
      · exact hdisj k (by simp [hk]) h1
      · exact hhead (h2 ▸ hk)
    calc (p :: rest).foldl (fun d q => dict_assign d q.1 q.2) acc
        = rest.foldl (fun d q => dict_assign d q.1 q.2) (acc ++ [p]) := by
          simp [dict_assign_fresh acc p.1 p.2 hfresh]
      _ = (acc ++ [p]) ++ rest := ih (acc ++ [p]) hnd_rest hdisj_rest
      _ = acc ++ (p :: rest) := by simp

theorem pyDict_of_nodup_keys {α : Type} (l : List (String × α))
    (h : (l.map Prod.fst).Nodup) : pyDict l = l := by
  have := foldl_dict_assign_fresh l [] h (by simp)
  simpa [pyDict] using this

theorem zip_map_fst {α β : Type} :
    ∀ (l1 : List α) (l2 : List β),
    (l1.zip l2).map Prod.fst = l1.take l2.length := by
  intro l1
  induction l1 with
  | nil => intro l2; simp
  | cons a t ih =>
    intro l2
    cases l2 with
    | nil => simp
    | cons b t2 => simp [ih]

theorem evens_flatten_pairs (f : Val × Val → List Val)
    (hf : ∀ p, f p = [p.1, p.2]) :
    ∀ pairs : List (Val × Val),
    evens (pairs.map f).flatten = pairs.map Prod.fst := by
  intro pairs
  induction pairs with
  | nil => rfl
  | cons p t ih =>
    simp only [List.map_cons, List.flatten_cons, hf p]
    simpa [evens] using ih

theorem odds_flatten_pairs (f : Val × Val → List Val)
    (hf : ∀ p, f p = [p.1, p.2]) :
    ∀ pairs : List (Val × Val),
    odds (pairs.map f).flatten = pairs.map Prod.snd := by
  intro pairs
  induction pairs with
  | nil => rfl
  | cons p t ih =>
    simp only [List.map_cons, List.flatten_cons, hf p]
    simpa [odds] using ih

theorem dict_lookup_ok_or_keyerror (mapping : List (String × String)) (v : Val) :
    (∃ c, dict_lookup mapping v = Except.ok c) ∨
    dict_lookup mapping v = Except.error PyErr.keyError := by
  cases v with
  | str s =>
    cases h : mapping.lookup s with
    | none => right; simp [dict_lookup, h]
    | some c => left; exact ⟨c, by simp [dict_lookup, h]⟩
  | int n => right; rfl
  | none => right; rfl

theorem is_ok_iff {ε α : Type} (e : Except ε α) :
    is_ok e = true ↔ ∃ a, e = Except.ok a := by
  cases e with
  | ok a => simp [is_ok]
  | error x => simp [is_ok]

theorem translate_columns_ok (mapping : List (String × String)) :
    ∀ ls : List Val, (∀ v ∈ ls, is_ok (dict_lookup mapping v) = true) →
    translate_columns mapping ls =
      Except.ok (ls.map (fun v => ((dict_lookup mapping v).toOption).getD "")) := by
  intro ls
  induction ls with
  | nil => intro _; rfl
  | cons v rest ih =>
    intro h
    obtain ⟨c, hc⟩ := (is_ok_iff _).mp (h v (List.mem_cons_self _ _))
    have hrest := ih (fun w hw => h w (List.mem_cons_of_mem _ hw))
    simp only [translate_columns, hc, hrest, List.map_cons, Except.toOption,
      Option.getD_some]

theorem translate_columns_err (mapping : List (String × String)) :
    ∀ ls : List Val, (∃ v ∈ ls, is_ok (dict_lookup mapping v) = false) →
    translate_columns mapping ls = Except.error PyErr.keyError := by
  intro ls
  induction ls with
  | nil => rintro ⟨v, hv, _⟩; cases hv
  | cons u rest ih =>
    rintro ⟨v, hv, hbad⟩
    rcases dict_lookup_ok_or_keyerror mapping u with ⟨c, hc⟩ | herr
    · have hvrest : v ∈ rest := by
        rcases List.mem_cons.mp hv with h1 | h2
        · exfalso
          rw [h1] at hbad
          rw [(is_ok_iff _).mpr ⟨c, hc⟩] at hbad
          cases hbad
        · exact h2
      have := ih ⟨v, hvrest, hbad⟩
      simp only [translate_columns, hc, this]
    · simp only [translate_columns, herr]

theorem slice_dataset_pairs_ok (pairs : List (Val × Val))
    (mapping : List (String × String))
    (h : ∀ p ∈ pairs, is_ok (dict_lookup mapping p.1) = true) :
    slice_dataset (pairs.map (fun p => [p.1, p.2])) mapping =
      Except.ok
        (pairs.map (fun p => ((dict_lookup mapping p.1).toOption).getD ""),
         pairs.map Prod.snd) := by
  have hl : ∀ v ∈ pairs.map Prod.fst, is_ok (dict_lookup mapping v) = true := by
    intro v hv
    obtain ⟨p, hp, hpv⟩ := List.mem_map.mp hv
    exact hpv ▸ h p hp
  simp only [slice_dataset,
    evens_flatten_pairs (fun p => [p.1, p.2]) (fun _ => rfl) pairs,
    odds_flatten_pairs (fun p => [p.1, p.2]) (fun _ => rfl) pairs,
    translate_columns_ok mapping (pairs.map Prod.fst) hl, List.map_map]
  rfl

theorem slice_dataset_pairs_err (pairs : List (Val × Val))
    (mapping : List (String × String))
    (h : ∃ p ∈ pairs, is_ok (dict_lookup mapping p.1) = false) :
    slice_dataset (pairs.map (fun p => [p.1, p.2])) mapping =
      Except.error PyErr.keyError := by
  obtain ⟨p, hp, hbad⟩ := h
  have hl : ∃ v ∈ pairs.map Prod.fst, is_ok (dict_lookup mapping v) = false :=
    ⟨p.1, List.mem_map.mpr ⟨p, hp, rfl⟩, hbad⟩
  simp only [slice_dataset,
    evens_flatten_pairs (fun p => [p.1, p.2]) (fun _ => rfl) pairs,
    translate_columns_err mapping (pairs.map Prod.fst) hl]

theorem pyGet_pair_fst (a b : Val) : pyGet [a, b] 0 = Option.some a := rfl

theorem pyGet_pair_snd (a b : Val) : pyGet [a, b] 1 = Option.some b := rfl

theorem filter_dataset_pairs_snd (v : Val) :
    ∀ prs : List (Val × Val),
    filter_dataset (prs.map (fun p => [p.1, p.2])) 1 v =
      Except.ok ((prs.filter (fun p => decide (p.2 = v))).map
        (fun p => [p.1, p.2])) := by
  intro prs
  induction prs with
  | nil => rfl
  | cons p t ih =>
    simp only [List.map_cons, filter_dataset, pyGet_pair_snd, ih,
      List.filter_cons]
    by_cases h : p.2 = v
    · simp [h]
    · simp [h]

theorem first_occurrences_map {α β : Type} [DecidableEq α] [DecidableEq β]
    (f : α → β) (hf : Function.Injective f) :
    ∀ l seen : List α,
    first_occurrences (seen.map f) (l.map f) =
      (first_occurrences seen l).map f := by
  intro l
  induction l with
  | nil => intro seen; rfl
  | cons a t ih =>
    intro seen
    by_cases h : a ∈ seen
    · have hmem : f a ∈ seen.map f := List.mem_map.mpr ⟨a, h, rfl⟩
      simp only [List.map_cons, first_occurrences, if_pos hmem, if_pos h, ih]
    · have hmem : f a ∉ seen.map f := by
        intro hc
        obtain ⟨b, hb, hba⟩ := List.mem_map.mp hc
        exact h (hf hba ▸ hb)
      simp only [List.map_cons, first_occurrences, if_neg hmem, if_neg h]
      have := ih (a :: seen)
      simp only [List.map_cons] at this
      rw [this]

theorem count_eq_map {α β : Type} [DecidableEq α] [DecidableEq β]
    (f : α → β) (hf : Function.Injective f) (a : α) :
    ∀ l : List α, count_eq (l.map f) (f a) = count_eq l a := by
  intro l
  induction l with
  | nil => rfl
  | cons b t ih =>
    simp only [count_eq, List.map_cons, List.filter_cons] at ih ⊢
    by_cases h : b = a
    · simp [h, ih]
    · have : ¬ (f b = f a) := fun hc => h (hf hc)
      simp [h, this, ih]

theorem counterItems_map {α β : Type} [DecidableEq α] [DecidableEq β]
    (f : α → β) (hf : Function.Injective f) (l : List α) :
    counterItems (l.map f) = (counterItems l).map (fun p => (f p.1, p.2)) := by
  unfold counterItems
  have h0 : (List.nil (α := α)).map f = [] := rfl
  rw [← h0, first_occurrences_map f hf l, List.map_map, List.map_map]
  refine List.map_congr_left ?_
  intro a _
  simp only [Function.comp_apply, count_eq_map f hf a l]

theorem pairs_from_counter_rows :
    ∀ items : List ((Val × Val) × Nat),
    pairs_from_counter (items.map (fun q => ([q.1.1, q.1.2], q.2))) =
      Except.ok (items.map (fun q => [q.1.1, Val.int (Int.ofNat q.2)])) := by
  intro items
  induction items with
  | nil => rfl
  | cons q t ih =>
    simp only [List.map_cons, pairs_from_counter, pyGet_pair_fst, ih]

theorem pair_row_injective :
    Function.Injective (fun p : Val × Val => [p.1, p.2]) := by
  intro p q h
  simp only [List.cons.injEq, and_true] at h
  exact Prod.ext h.1 h.2

/-- The counted signout dataset that __signout_process hands to
slice_dataset, computed from the input rows viewed as (department, outcome)
pairs: the distinct discharged rows in first-encounter order, each paired
with its multiplicity. -/
def counted_signout_pairs (prs : List (Val × Val)) : List (Val × Val) :=
  (counterItems (prs.filter (fun p => decide (p.2 = Val.str "Выписан")))).map
    (fun q => (q.1.1, Val.int (Int.ofNat q.2)))

theorem signout_process_reduces (prs : List (Val × Val)) :
    signout_process (prs.map (fun p => [p.1, p.2])) =
      (match slice_dataset
          ((counted_signout_pairs prs).map (fun p => [p.1, p.2]))
          depts_mapping with
       | Except.error e => Except.error e
       | Except.ok packed_data =>
         match count_values (prs.map (fun p => [p.1, p.2])) 1 signout_keywords with
         | Except.error e => Except.error e
         | Except.ok sorted_signout =>
           Except.ok (serialize (create_instance
             (signout_columns ++ packed_data.1)
             [sorted_signout.map (fun n => Val.int (Int.ofNat n)) ++
              packed_data.2]))) := by
  simp only [signout_process, filter_dataset_pairs_snd,
    counterItems_map (fun p : Val × Val => [p.1, p.2]) pair_row_injective,
    pairs_from_counter_rows, counted_signout_pairs, List.map_map]
  rfl

theorem signout_err_of_unmapped (prs : List (Val × Val))
    (h : ∃ q ∈ first_occurrences []
        (prs.filter (fun p => decide (p.2 = Val.str "Выписан"))),
      is_ok (dict_lookup depts_mapping q.1) = false) :
    signout_process (prs.map (fun p => [p.1, p.2])) =
      Except.error PyErr.keyError := by
  obtain ⟨q, hq, hbad⟩ := h
  have hmem : (q.1, Val.int (Int.ofNat (count_eq
      (prs.filter (fun p => decide (p.2 = Val.str "Выписан"))) q)))
      ∈ counted_signout_pairs prs := by
    unfold counted_signout_pairs counterItems
    simp only [List.map_map]
    exact List.mem_map.mpr ⟨q, hq, rfl⟩
  have hex : ∃ p ∈ counted_signout_pairs prs,
      is_ok (dict_lookup depts_mapping p.1) = false := ⟨_, hmem, hbad⟩
  rw [signout_process_reduces,
    slice_dataset_pairs_err (counted_signout_pairs prs) depts_mapping hex]

theorem signout_ok_of_mapped (prs : List (Val × Val))
    (h : ∀ q ∈ first_occurrences []
        (prs.filter (fun p => decide (p.2 = Val.str "Выписан"))),
      is_ok (dict_lookup depts_mapping q.1) = true) :
    ∃ res, signout_process (prs.map (fun p => [p.1, p.2])) = Except.ok res := by
  have hall : ∀ p ∈ counted_signout_pairs prs,
      is_ok (dict_lookup depts_mapping p.1) = true := by
    intro p hp
    unfold counted_signout_pairs counterItems at hp
    simp only [List.map_map] at hp
    obtain ⟨q, hq, rfl⟩ := List.mem_map.mp hp
    exact h q hq
  have hsome : ∀ r ∈ prs.map (fun p : Val × Val => [p.1, p.2]),
      (pyGet r 1).isSome = true := by
    intro r hr
    obtain ⟨p, _, rfl⟩ := List.mem_map.mp hr
    rfl
  rw [signout_process_reduces,
    slice_dataset_pairs_ok (counted_signout_pairs prs) depts_mapping hall,
    count_values_ok (prs.map (fun p => [p.1, p.2])) 1 hsome signout_keywords]
  exact ⟨_, rfl⟩

/-! Claim theorems. -/

/-- Claim C3, counterexample: the degraded-mode detector does not return
false on an empty dataset; reading dataset[0] raises IndexError, so a
failed-query sentinel and a legitimately empty dataset are not both handled
by a boolean result as the claim states. -/
theorem c3_empty_dataset_counterexample :
    error_check [] = Except.error PyErr.indexError := rfl

/-- Claim C3, amended: for a dataset whose first row has a first field,
error_check is truthy exactly when that field equals the reserved marker
Error (Python returns None, falsy, otherwise); on an empty dataset, or one
whose first row is empty, it raises IndexError instead of returning
false. -/
theorem c3_error_check_amended :
    (∀ (v : Val) (row_rest : List Val) (ds_rest : List (List Val)),
        error_check ((v :: row_rest) :: ds_rest) =
          Except.ok (decide (v = Val.str "Error"))) ∧
    error_check [] = Except.error PyErr.indexError ∧
    (∀ ds_rest : List (List Val),
        error_check ([] :: ds_rest) = Except.error PyErr.indexError) :=
  ⟨fun _ _ _ => rfl, rfl, fun _ => rfl⟩

/-- Claim C2, counterexample: a row shorter than the column list does not
make create_instance fail with a construction error; dict(zip(columns,
row)) silently truncates, producing a record that lacks the column b
entirely. -/
theorem c2_mismatch_truncated_counterexample :
    create_instance ["a", "b"] [[Val.str "x"]] = [[("a", Val.str "x")]] := rfl

/-- Claim C2, amended: create_instance never fails; it returns exactly one
record per row regardless of length mismatches, each record being the
column list zipped against the row values and truncated to the shorter
length; only when every row has exactly the column-list length (and the
column names are distinct) does every record expose exactly the given
columns as its keys. -/
theorem c2_create_instance_truncates (columns : List String)
    (dataset : List (List Val)) (h : columns.Nodup) :
    (create_instance columns dataset).length = dataset.length ∧
    List.Forall₂ (fun rec row => rec = columns.zip row)
      (create_instance columns dataset) dataset ∧
    ((∀ row ∈ dataset, row.length = columns.length) →
      ∀ rec ∈ create_instance columns dataset, rec.map Prod.fst = columns) := by
  have hz : ∀ row : List Val, pyDict (columns.zip row) = columns.zip row := by
    intro row
    refine pyDict_of_nodup_keys _ ?_
    rw [zip_map_fst]
    exact (List.take_sublist _ _).nodup h
  refine ⟨by simp [create_instance], ?_, ?_⟩
  · rw [create_instance, List.forall₂_map_left_iff]
    refine List.forall₂_same.mpr ?_
    intro row _
    exact hz row
  · intro hlen rec hrec
    obtain ⟨row, hrow, rfl⟩ := List.mem_map.mp hrec
    rw [hz row, zip_map_fst, hlen row hrow, List.take_length]

/-- Witness for C2: the amended statement applied to two columns and one
full-width row. -/
theorem c2_create_instance_truncates_witness :
    (create_instance ["a", "b"] [[Val.str "x", Val.int 2]]).length = 1 ∧
    List.Forall₂ (fun rec row => rec = (["a", "b"] : List String).zip row)
      (create_instance ["a", "b"] [[Val.str "x", Val.int 2]])
      [[Val.str "x", Val.int 2]] :=
  ⟨(c2_create_instance_truncates ["a", "b"] [[Val.str "x", Val.int 2]]
      (by decide)).1,
   (c2_create_instance_truncates ["a", "b"] [[Val.str "x", Val.int 2]]
      (by decide)).2.1⟩

/-- Claim C4: when the database connection was never established, the KIS
front-end pipeline (create_ready_dicts of backend/data/kis_data.py) does
return the all-null keyed result without pulling any dataset; the DMK
collection path (DataForDMK.__collect_data), however, raises
UnboundLocalError on that same condition, because its return expression
reads the local dh_dataset that only the connected branch assigns, so that
pipeline run ends in an exception instead of the all-null record. -/
theorem c4_source_unavailable :
    (∀ (gen : List (List (List Val))) (profiles : List (String × Int))
        (today : Val),
        collect_data true gen profiles today =
          Except.error PyErr.unboundLocal) ∧
    (∀ (gen : List (List (List Val))) (counted_oar : List (List (List Val))),
        create_ready_dicts true gen counted_oar =
          Except.ok ([dict_keywords.map (fun k => (k, Frag.null))],
                     counted_oar)) :=
  ⟨fun _ _ _ => rfl, fun _ _ => rfl⟩

/-- Claim C5: iterating the generator to exhaustion releases the connection
exactly once, but abandoning iteration early releases it zero times: the
close_connection call sits after the loop with no try/finally, so
generator finalization (GeneratorExit at the suspended yield) skips it. -/
theorem c5_close_connection_trace :
    (∀ query_sets : List String,
        close_count (gen_trace query_sets (query_sets.length + 1)) = 1) ∧
    (∀ (query_sets : List String) (pulls : Nat),
        close_count (abandon_trace query_sets pulls) = 0) ∧
    abandon_trace ["q1", "q2"] 1 = [GenEffect.query "q1"] := by
  have hq : ∀ l : List String,
      List.countP (fun e => decide (e = GenEffect.closeConn))
        (l.map GenEffect.query) = 0 := by
    intro l
    rw [List.countP_eq_zero]
    intro e he
    obtain ⟨q, _, rfl⟩ := List.mem_map.mp he
    simp
  refine ⟨?_, ?_, rfl⟩
  · intro qs
    have hnot : ¬ (qs.length + 1 ≤ qs.length) := by omega
    simp only [gen_trace, if_neg hnot, close_count, List.countP_append, hq]
    rfl
  · intro qs pulls
    simp only [abandon_trace, close_count, hq]

/-- Claim C7: with exactly three living-buffer entries and one deaths
entry, oar_count returns the four summary entries keyed
arrived_nums/moved_nums/current_nums/deads_nums in that order; with fewer
than three living entries it raises IndexError. -/
theorem c7_oar_count_precondition :
    (∀ (a b c : List (List Val)) (x : List Val),
        oar_count [a, b, c] [x] =
          Except.ok
            [("arrived_nums", serialize (create_instance oar_amount_columns a)),
             ("moved_nums", serialize (create_instance oar_amount_columns b)),
             ("current_nums", serialize (create_instance oar_amount_columns c)),
             ("deads_nums", serialize (create_instance oar_amount_columns [x]))]) ∧
    (∀ (counted_oar : List (List (List Val))) (deads_oar : List (List Val)),
        counted_oar.length < 3 →
        oar_count counted_oar deads_oar = Except.error PyErr.indexError) := by
  constructor
  · intro a b c x
    rfl
  · intro counted_oar deads_oar h
    match counted_oar with
    | [] => rfl
    | [_] => rfl
    | [_, _] => rfl
    | _ :: _ :: _ :: _ => exact absurd h (by simp)

/-- Witness for C7: the shape statement at three empty entries and the
precondition fault at an empty living buffer. -/
theorem c7_oar_count_precondition_witness :
    oar_count [[], [], []] [[]] =
      Except.ok [("arrived_nums", []), ("moved_nums", []),
                 ("current_nums", []), ("deads_nums", [[]])] ∧
    oar_count [] [] = Except.error PyErr.indexError :=
  ⟨c7_oar_count_precondition.1 [] [] [] [],
   c7_oar_count_precondition.2 [] [] (by decide)⟩

/-- Claim C6: the flatten-paired round trip.  For any list of
(label, value) pairs whose labels all translate through the mapping table,
slice_dataset succeeds, the returned column and value lists both have the
length of the pair list, the value at each position is exactly the value
originally paired with the label at that position in encounter order, and
the column at each position is that label translated through the table. -/
theorem c6_flatten_paired_round_trip (pairs : List (Val × Val))
    (mapping : List (String × String))
    (h : ∀ p ∈ pairs, is_ok (dict_lookup mapping p.1) = true) :
    slice_dataset (pairs.map (fun p => [p.1, p.2])) mapping =
      Except.ok
        (pairs.map (fun p => ((dict_lookup mapping p.1).toOption).getD ""),
         pairs.map Prod.snd) ∧
    (pairs.map (fun p => ((dict_lookup mapping p.1).toOption).getD "")).length
      = pairs.length ∧
    (pairs.map Prod.snd).length = pairs.length := by
  refine ⟨slice_dataset_pairs_ok pairs mapping h, ?_, ?_⟩ <;> simp

/-- Witness for C6: a one-pair dataset translated through a one-entry
table. -/
theorem c6_flatten_paired_round_trip_witness :
    slice_dataset [[Val.str "Терапия", Val.int 5]] [("Терапия", "therapy")] =
      Except.ok (["therapy"], [Val.int 5]) :=
  ((c6_flatten_paired_round_trip [(Val.str "Терапия", Val.int 5)]
      [("Терапия", "therapy")] (by decide)).1).trans rfl

/-- Claim C8: countByKeywords.  Whenever every row of the dataset has a
field at the given index, count_values returns one count per keyword in
keyword order, the count at each position being the number of rows whose
field at that index equals that keyword (zero when none match); and on a
failure-sentinel input the pg arrivals aggregator produces its summary
record from all-zero channel counts and all-zero patient-type counts. -/
theorem c8_count_by_keywords :
    (∀ (dataset : List (List Val)) (ind : Int) (keywords : List Val),
        (∀ r ∈ dataset, (pyGet r ind).isSome = true) →
        count_values dataset ind keywords =
          Except.ok (keywords.map (fun kw =>
            (dataset.filter
              (fun r => decide (pyGet r ind = Option.some kw))).length)) ∧
        (keywords.map (fun kw =>
            (dataset.filter
              (fun r => decide (pyGet r ind = Option.some kw))).length)).length
          = keywords.length) ∧
    (∀ (row_rest : List Val) (ds_rest : List (List Val)),
        arrived_process_pg ((Val.str "Error" :: row_rest) :: ds_rest) =
          Except.ok (serialize (create_instance arrived_columns
            [List.replicate 8 (Val.int 0)]))) := by
  constructor
  · intro dataset ind keywords h
    exact ⟨count_values_ok dataset ind h keywords, by simp⟩
  · intro row_rest ds_rest
    rfl

/-- Witness for C8: concrete counts over a one-row dataset (one matching
keyword, one with zero matches) and the sentinel path of the arrivals
aggregator. -/
theorem c8_count_by_keywords_witness :
    count_values [[Val.int 1]] 0 [Val.int 1, Val.int 7] =
      Except.ok [1, 0] ∧
    arrived_process_pg [[Val.str "Error"]] =
      Except.ok [[("ch103", Val.int 0), ("clinic_only", Val.int 0),
                  ("ch103_clinic", Val.int 0), ("singly", Val.int 0),
                  ("ZL", Val.int 0), ("foreign", Val.int 0),
                  ("moscow", Val.int 0), ("undefined", Val.int 0)]] :=
  ⟨((c8_count_by_keywords.1 [[Val.int 1]] 0 [Val.int 1, Val.int 7]
      (by decide)).1).trans rfl,
   (c8_count_by_keywords.2 [] []).trans rfl⟩

/-- Claim C9: a label absent from the lookup table makes the translation
step fail with a KeyError (LookupError) that propagates out of the signout
aggregation instead of being skipped, both at the slice_dataset level and
through __signout_process of backend/data/kis_data.py; when every label of
the derived paired dataset is present in the table, translation succeeds,
maps each label to its canonical field name, and the aggregation returns a
result without raising. -/
theorem c9_unmapped_label_propagates :
    (∀ (pairs : List (Val × Val)) (mapping : List (String × String)),
        (∃ p ∈ pairs, is_ok (dict_lookup mapping p.1) = false) →
        slice_dataset (pairs.map (fun p => [p.1, p.2])) mapping =
          Except.error PyErr.keyError) ∧
    (∀ prs : List (Val × Val),
        (∃ q ∈ first_occurrences []
            (prs.filter (fun p => decide (p.2 = Val.str "Выписан"))),
          is_ok (dict_lookup depts_mapping q.1) = false) →
        signout_process (prs.map (fun p => [p.1, p.2])) =
          Except.error PyErr.keyError) ∧
    (∀ (mapping : List (String × String)) (ls : List Val),
        (∀ v ∈ ls, is_ok (dict_lookup mapping v) = true) →
        translate_columns mapping ls =
          Except.ok (ls.map
            (fun v => ((dict_lookup mapping v).toOption).getD ""))) ∧
    (∀ prs : List (Val × Val),
        (∀ q ∈ first_occurrences []
            (prs.filter (fun p => decide (p.2 = Val.str "Выписан"))),
          is_ok (dict_lookup depts_mapping q.1) = true) →
        ∃ res, signout_process (prs.map (fun p => [p.1, p.2])) =
          Except.ok res) :=
  ⟨fun pairs mapping h => slice_dataset_pairs_err pairs mapping h,
   fun prs h => signout_err_of_unmapped prs h,
   fun mapping ls h => translate_columns_ok mapping ls h,
   fun prs h => signout_ok_of_mapped prs h⟩

/-- Witness for C9: an unknown department label makes both slice_dataset
and the signout aggregation raise KeyError; a configured label translates
to its canonical name and the aggregation completes. -/
theorem c9_unmapped_label_propagates_witness :
    slice_dataset [[Val.str "Неизвестное отделение", Val.int 1]] [] =
      Except.error PyErr.keyError ∧
    signout_process [[Val.str "Неизвестное отделение", Val.str "Выписан"]] =
      Except.error PyErr.keyError ∧
    translate_columns depts_mapping [Val.str "Хирургическое отделение"] =
      Except.ok ["surgery_d"] ∧
    is_ok (signout_process
      [[Val.str "Хирургическое отделение", Val.str "Выписан"]]) = true := by
  refine ⟨?_, ?_, ?_, ?_⟩
  · exact c9_unmapped_label_propagates.1
      [(Val.str "Неизвестное отделение", Val.int 1)] [] (by decide)
  · exact c9_unmapped_label_propagates.2.1
      [(Val.str "Неизвестное отделение", Val.str "Выписан")] (by decide)
  · exact (c9_unmapped_label_propagates.2.2.1 depts_mapping
      [Val.str "Хирургическое отделение"] (by decide)).trans rfl
  · obtain ⟨res, hres⟩ := c9_unmapped_label_propagates.2.2.2
      [(Val.str "Хирургическое отделение", Val.str "Выписан")] (by decide)
    rw [show signout_process
        [[Val.str "Хирургическое отделение", Val.str "Выписан"]] =
      signout_process
        ([(Val.str "Хирургическое отделение", Val.str "Выписан")].map
          (fun p => [p.1, p.2])) from rfl, hres]
    rfl

/-- Claim C1: the living accumulator buffer counted_oar is a class-level
list mutated by append, so it survives across pipeline runs.  A first run
(starting from the pristine class attribute, an empty buffer) over ICU
datasets holding one patient in unit ОРИТ №1 leaves three (1,0,0) entries
behind; a second run over all-empty datasets then reports an occupancy
summary whose arrived/moved/current records still show the count 1 of the
first run, while the only entries the second run itself appended are
(0,0,0), whose record differs.  The deaths buffer, by contrast, is rebound
(not mutated) and does not leak. -/
theorem c1_counted_oar_survives_runs :
    kis_oar_run [] []
        [[Val.none, Val.none, Val.none, Val.str "ОРИТ №1"]]
        [[Val.none, Val.none, Val.none, Val.str "ОРИТ №1"]]
        [[Val.none, Val.none, Val.none, Val.str "ОРИТ №1"]] =
      Except.ok
        ([("arrived_nums",
           [[("oar1_d", Val.int 1), ("oar2_d", Val.int 0), ("oaronmk_d", Val.int 0)]]),
          ("moved_nums",
           [[("oar1_d", Val.int 1), ("oar2_d", Val.int 0), ("oaronmk_d", Val.int 0)]]),
          ("current_nums",
           [[("oar1_d", Val.int 1), ("oar2_d", Val.int 0), ("oaronmk_d", Val.int 0)]]),
          ("deads_nums",
           [[("oar1_d", Val.int 0), ("oar2_d", Val.int 0), ("oaronmk_d", Val.int 0)]])],
         [[[Val.int 1, Val.int 0, Val.int 0]],
          [[Val.int 1, Val.int 0, Val.int 0]],
          [[Val.int 1, Val.int 0, Val.int 0]]]) ∧
    kis_oar_run
        [[[Val.int 1, Val.int 0, Val.int 0]],
         [[Val.int 1, Val.int 0, Val.int 0]],
         [[Val.int 1, Val.int 0, Val.int 0]]] [] [] [] [] =
      Except.ok
        ([("arrived_nums",
           [[("oar1_d", Val.int 1), ("oar2_d", Val.int 0), ("oaronmk_d", Val.int 0)]]),
          ("moved_nums",
           [[("oar1_d", Val.int 1), ("oar2_d", Val.int 0), ("oaronmk_d", Val.int 0)]]),
          ("current_nums",
           [[("oar1_d", Val.int 1), ("oar2_d", Val.int 0), ("oaronmk_d", Val.int 0)]]),
          ("deads_nums",
           [[("oar1_d", Val.int 0), ("oar2_d", Val.int 0), ("oaronmk_d", Val.int 0)]])],
         [[[Val.int 1, Val.int 0, Val.int 0]],
          [[Val.int 1, Val.int 0, Val.int 0]],
          [[Val.int 1, Val.int 0, Val.int 0]],
          [[Val.int 0, Val.int 0, Val.int 0]],
          [[Val.int 0, Val.int 0, Val.int 0]],
          [[Val.int 0, Val.int 0, Val.int 0]]]) ∧
    create_instance oar_amount_columns [[Val.int 0, Val.int 0, Val.int 0]] ≠
      [[("oar1_d", Val.int 1), ("oar2_d", Val.int 0), ("oaronmk_d", Val.int 0)]] :=
  ⟨rfl, rfl, by decide⟩

/-- Claim C10: in create_ready_dicts of backend/data/kis_data.py the topic
key of each fragment is keywords[ready_dataset.index(dataset)], a value
lookup that returns the position of the FIRST equal fragment.  In the run
below all six pulled datasets are empty, so the deaths table and the three
ICU tables all serialize to the same empty fragment; all four collapse
onto the keyword deads, and the final result carries only four of the
seven topic keywords: oar_arrived, oar_moved and oar_current are absent. -/
theorem c10_index_keying_drops_topics :
    create_ready_dicts false [[], [], [], [], [], []] [] =
      Except.ok
        ([[("arrived",
            Frag.recs
              [[("ch103", Val.int 0), ("clinic_only", Val.int 0),
                ("ch103_clinic", Val.int 0), ("singly", Val.int 0),
                ("ZL", Val.int 0), ("foreign", Val.int 0),
                ("moscow", Val.int 0), ("undefined", Val.int 0)]]),
           ("signout",
            Frag.recs
              [[("deads", Val.int 0), ("moved", Val.int 0),
                ("signout", Val.int 0)]]),
           ("deads", Frag.recs []),
           ("oar_numbers",
            Frag.oar
              [("arrived_nums",
                [[("oar1_d", Val.int 0), ("oar2_d", Val.int 0),
                  ("oaronmk_d", Val.int 0)]]),
               ("moved_nums",
                [[("oar1_d", Val.int 0), ("oar2_d", Val.int 0),
                  ("oaronmk_d", Val.int 0)]]),
               ("current_nums",
                [[("oar1_d", Val.int 0), ("oar2_d", Val.int 0),
                  ("oaronmk_d", Val.int 0)]]),
               ("deads_nums",
                [[("oar1_d", Val.int 0), ("oar2_d", Val.int 0),
                  ("oaronmk_d", Val.int 0)]])])]],
         [[[Val.int 0, Val.int 0, Val.int 0]],
          [[Val.int 0, Val.int 0, Val.int 0]],
          [[Val.int 0, Val.int 0, Val.int 0]]]) ∧
    (["arrived", "signout", "deads", "oar_numbers"] : List String) ≠
      dict_keywords :=
  ⟨rfl, by decide⟩

end Hospital
